import Mathlib

/-!
# Speed controller plugin: shallow embedding

A shallow embedding of `src/speed_controller_plugin.cpp`
(aerostack2 `controller_plugin_speed_controller`).  The plugin is a
single-threaded state machine; every member function becomes a pure
state transformer on `PluginState`.  Doubles are modelled as rationals.
The external PID regulator library and the external frame utilities are
out of scope of the repository; they are modelled from the spec's
external-interface contract and marked as such in their doc comments.
-/

namespace SpeedCtl

/-- A 3-vector of rationals, modelling `Eigen::Vector3d`. -/
@[ext]
structure Vec3 where
  x : ℚ
  y : ℚ
  z : ℚ
deriving DecidableEq, Repr

/-- The zero vector (`Eigen::Vector3d::Zero()`). -/
def Vec3.zero : Vec3 := ⟨0, 0, 0⟩

/-- Componentwise subtraction. -/
def Vec3.sub (a b : Vec3) : Vec3 := ⟨a.x - b.x, a.y - b.y, a.z - b.z⟩

/-- Componentwise addition. -/
def Vec3.add (a b : Vec3) : Vec3 := ⟨a.x + b.x, a.y + b.y, a.z + b.z⟩

/-- Componentwise (Hadamard) product. -/
def Vec3.mulE (a b : Vec3) : Vec3 := ⟨a.x * b.x, a.y * b.y, a.z * b.z⟩

/-- Scaling by a rational. -/
def Vec3.smul (q : ℚ) (a : Vec3) : Vec3 := ⟨q * a.x, q * a.y, q * a.z⟩

/-- Modelled from the spec: the external scalar PID regulator handle
(`pid_controller::PIDController`), an opaque stateful functor with
gains, filter/anti-windup configuration, an output-saturation bound and
internal integrator/derivative memory (`integral`, `prevError`).
The numerical engine itself is out of scope; `computeControl` is a pure
function of internal state plus inputs, as the spec contract states. -/
@[ext]
structure PIDController where
  kp : ℚ := 0
  ki : ℚ := 0
  kd : ℚ := 0
  antiwindupCte : ℚ := 0
  alpha : ℚ := 0
  resetIntSatFlag : Bool := false
  outSat : ℚ := 0
  integral : ℚ := 0
  prevError : ℚ := 0
deriving DecidableEq, Repr

/-- Modelled from the spec: `resetController()` clears the
integrator/derivative memory (gains and configuration persist). -/
def PIDController.resetController (c : PIDController) : PIDController :=
  { c with integral := 0, prevError := 0 }

/-- Modelled from the spec: `computeControl(dt, error)`, a textbook PID
step over the internal state, returning the control effort and the
updated internal state. -/
def PIDController.computeControl (c : PIDController) (dt err : ℚ) :
    ℚ × PIDController :=
  let integral := c.integral + err * dt
  let deriv := if dt = 0 then 0 else (err - c.prevError) / dt
  (c.kp * err + c.ki * integral + c.kd * deriv,
   { c with integral := integral, prevError := err })

/-- Modelled from the spec: the scalar overload
`computeControl(dt, measured, reference)` used for the altitude channel,
a PID step on the error `reference - measured`. -/
def PIDController.computeControlMeasRef (c : PIDController)
    (dt meas ref : ℚ) : ℚ × PIDController :=
  c.computeControl dt (ref - meas)

/-- Modelled from the spec: the external 3-axis PID regulator handle
(`pid_controller::PIDController3D`), with per-axis gains and a 3-vector
output-saturation bound. -/
@[ext]
structure PIDController3D where
  kp : Vec3 := Vec3.zero
  ki : Vec3 := Vec3.zero
  kd : Vec3 := Vec3.zero
  antiwindupCte : ℚ := 0
  alpha : ℚ := 0
  resetIntSatFlag : Bool := false
  outSat : Vec3 := Vec3.zero
  integral : Vec3 := Vec3.zero
  prevError : Vec3 := Vec3.zero
deriving DecidableEq, Repr

/-- Modelled from the spec: `resetController()` clears the
integrator/derivative memory of the 3-axis regulator. -/
def PIDController3D.resetController (c : PIDController3D) : PIDController3D :=
  { c with integral := Vec3.zero, prevError := Vec3.zero }

/-- Modelled from the spec: `setOutputSaturation(vector)` stores the
output-saturation bound on the handle. -/
def PIDController3D.setOutputSaturation (c : PIDController3D) (v : Vec3) :
    PIDController3D :=
  { c with outSat := v }

/-- Modelled from the spec: `computeControl(dt, measured, reference)`,
a componentwise PID step returning the control effort and the updated
internal state. -/
def PIDController3D.computeControl (c : PIDController3D) (dt : ℚ)
    (meas ref : Vec3) : Vec3 × PIDController3D :=
  let err := Vec3.sub ref meas
  let integral := Vec3.add c.integral (Vec3.smul dt err)
  let deriv := if dt = 0 then Vec3.zero
    else Vec3.smul (1 / dt) (Vec3.sub err c.prevError)
  (Vec3.add (Vec3.add (Vec3.mulE c.kp err) (Vec3.mulE c.ki integral))
     (Vec3.mulE c.kd deriv),
   { c with integral := integral, prevError := err })

/-- Modelled from the spec: the trajectory-tracking overload
`computeControl(dt, measured, reference, measuredRate, referenceRate)`,
a feed-forward + feedback cascade consuming both position and velocity
errors jointly. -/
def PIDController3D.computeControlTraj (c : PIDController3D) (dt : ℚ)
    (meas ref measRate refRate : Vec3) : Vec3 × PIDController3D :=
  let err := Vec3.sub ref meas
  let derr := Vec3.sub refRate measRate
  let integral := Vec3.add c.integral (Vec3.smul dt err)
  (Vec3.add (Vec3.add (Vec3.mulE c.kp err) (Vec3.mulE c.ki integral))
     (Vec3.mulE c.kd derr),
   { c with integral := integral, prevError := err })

/-!
The `as2_msgs::msg::ControlMode` constants used by the plugin
(numeric values as declared in the message definition; only their
distinctness matters to the plugin logic).
-/

namespace CM

/-- Control mode HOVER. -/
def HOVER : Nat := 1

/-- Control mode SPEED. -/
def SPEED : Nat := 4

/-- Control mode SPEED_IN_A_PLANE. -/
def SPEED_IN_A_PLANE : Nat := 5

/-- Control mode POSITION. -/
def POSITION : Nat := 6

/-- Control mode TRAJECTORY. -/
def TRAJECTORY : Nat := 7

/-- Yaw mode YAW_ANGLE. -/
def YAW_ANGLE : Nat := 1

/-- Yaw mode YAW_SPEED. -/
def YAW_SPEED : Nat := 2

/-- Reference frame LOCAL_ENU_FRAME. -/
def LOCAL_ENU_FRAME : Nat := 1

/-- Reference frame BODY_FLU_FRAME. -/
def BODY_FLU_FRAME : Nat := 2

end CM

/-- An `as2_msgs::msg::ControlMode` message value: a control-mode tag, a
yaw-mode tag and a reference-frame tag. -/
@[ext]
structure ControlMode where
  control_mode : Nat := 0
  yaw_mode : Nat := 0
  reference_frame : Nat := 0
deriving DecidableEq, Repr

/-- The `Control_flags` readiness set, with the fields the `.cpp` file
actually uses (it adds the speed-in-a-plane group to the set declared in
the header). -/
@[ext]
structure ControlFlags where
  state_received : Bool := false
  ref_received : Bool := false
  plugin_parameters_read : Bool := false
  position_controller_parameters_read : Bool := false
  velocity_controller_parameters_read : Bool := false
  speed_in_a_plane_controller_parameters_read : Bool := false
  trajectory_controller_parameters_read : Bool := false
  yaw_controller_parameters_read : Bool := false
deriving DecidableEq, Repr

/-- `UAV_state`: position, velocity and a yaw 3-vector encoding
(angle, rate, acceleration). -/
@[ext]
structure UAVState where
  position : Vec3 := Vec3.zero
  velocity : Vec3 := Vec3.zero
  yaw : Vec3 := Vec3.zero
deriving DecidableEq, Repr

/-- `UAV_command`: velocity 3-vector plus yaw-speed scalar. -/
@[ext]
structure UAVCommand where
  velocity : Vec3 := Vec3.zero
  yaw_speed : ℚ := 0
deriving DecidableEq, Repr

/-- The plugin's mutable member state: modes, readiness flags, vehicle
and reference state, command output, the six regulator handles, frame
identifiers, the outstanding parameter-name lists and the two plugin
parameters. -/
@[ext]
structure PluginState where
  control_mode_in : ControlMode := {}
  control_mode_out : ControlMode := {}
  flags : ControlFlags := {}
  uav_state : UAVState := {}
  control_ref : UAVState := {}
  control_command : UAVCommand := {}
  speed_limits : Vec3 := Vec3.zero
  proportional_limitation : Bool := false
  use_bypass : Bool := false
  pid_yaw : PIDController := {}
  pid_1D_speed_in_a_plane : PIDController := {}
  pid_3D_position : PIDController3D := {}
  pid_3D_velocity : PIDController3D := {}
  pid_3D_speed_in_a_plane : PIDController3D := {}
  pid_3D_trajectory : PIDController3D := {}
  enu_frame_id : String := "odom"
  flu_frame_id : String := "base_link"
  input_pose_frame_id : String := "odom"
  input_twist_frame_id : String := "odom"
  output_twist_frame_id : String := "odom"
  plugin_parameters_to_read : List String := []
  position_control_parameters_to_read : List String := []
  velocity_control_parameters_to_read : List String := []
  speed_in_a_plane_control_parameters_to_read : List String := []
  trajectory_control_parameters_to_read : List String := []
  yaw_control_parameters_to_read : List String := []
deriving DecidableEq, Repr

/-- A pose message input: the position and the yaw angle its orientation
quaternion encodes (the external `getYawFromQuaternion` extraction is
modelled by carrying the extracted yaw directly). -/
structure PoseMsg where
  position : Vec3 := Vec3.zero
  orientationYaw : ℚ := 0
deriving DecidableEq, Repr

/-- A twist message input: linear 3-vector and angular z component. -/
structure TwistMsg where
  linear : Vec3 := Vec3.zero
  angularZ : ℚ := 0
deriving DecidableEq, Repr

/-- A `rclcpp::Parameter`: a name together with its boolean and numeric
readings (`get_value<bool>` / `get_value<double>`). -/
structure Param where
  name : String
  bval : Bool := false
  nval : ℚ := 0
deriving DecidableEq, Repr

/-- The controller-group tag of a parameter name: `substr(0, find("."))`,
i.e. the characters before the first dot (the whole name when there is
no dot, matching `std::string::npos` arithmetic). -/
def controllerOf (n : String) : String :=
  String.mk (n.data.takeWhile (fun c => c ≠ '.'))

/-- The leaf name of a parameter name: `substr(find(".") + 1)`, i.e. the
characters after the first dot; with no dot, `npos + 1` wraps to `0` and
the whole name is returned. -/
def subnameOf (n : String) : String :=
  match n.data.dropWhile (fun c => c ≠ '.') with
  | [] => n
  | _ :: t => String.mk t

/-- `Plugin::checkParamList`: erase every occurrence of `param` from the
outstanding list; if the list is then empty, the readiness flag becomes
true (it is never set false here). -/
def checkParamList (param : String) (l : List String) (flag : Bool) :
    List String × Bool :=
  let l2 := l.filter (fun q => q ≠ param)
  (l2, if l2.length = 0 then true else flag)

/-- The guarded group update in `parametersCallback`: `checkParamList`
runs only while the group's readiness flag is still false. -/
def touchGroup (n : String) (l : List String) (flag : Bool) :
    List String × Bool :=
  if flag = false then checkParamList n l flag else (l, flag)

/-- `Plugin::updateControllerParameter`: route a leaf name to the scalar
PID handle's setter; unrecognized leaves are ignored. -/
def updateControllerParameter (c : PIDController) (sub : String)
    (p : Param) : PIDController :=
  if sub = "reset_integral" then { c with resetIntSatFlag := p.bval }
  else if sub = "antiwindup_cte" then { c with antiwindupCte := p.nval }
  else if sub = "alpha" then { c with alpha := p.nval }
  else if sub = "kp" then { c with kp := p.nval }
  else if sub = "ki" then { c with ki := p.nval }
  else if sub = "kd" then { c with kd := p.nval }
  else c

/-- `Plugin::updateController3DParameter`: route a leaf name to the
3-axis PID handle's setter; unrecognized leaves are ignored. -/
def updateController3DParameter (c : PIDController3D) (sub : String)
    (p : Param) : PIDController3D :=
  if sub = "reset_integral" then { c with resetIntSatFlag := p.bval }
  else if sub = "antiwindup_cte" then { c with antiwindupCte := p.nval }
  else if sub = "alpha" then { c with alpha := p.nval }
  else if sub = "kp.x" then { c with kp := { c.kp with x := p.nval } }
  else if sub = "kp.y" then { c with kp := { c.kp with y := p.nval } }
  else if sub = "kp.z" then { c with kp := { c.kp with z := p.nval } }
  else if sub = "ki.x" then { c with ki := { c.ki with x := p.nval } }
  else if sub = "ki.y" then { c with ki := { c.ki with y := p.nval } }
  else if sub = "ki.z" then { c with ki := { c.ki with z := p.nval } }
  else if sub = "kd.x" then { c with kd := { c.kd with x := p.nval } }
  else if sub = "kd.y" then { c with kd := { c.kd with y := p.nval } }
  else if sub = "kd.z" then { c with kd := { c.kd with z := p.nval } }
  else c

/-- `Plugin::updateSpeedInAPlaneParameter`: shared leaves fan out to
both the 1-D altitude and the 3-D horizontal regulator, `height.*`
leaves target the 1-D one and `speed.*` leaves the 3-D one. -/
def updateSpeedInAPlaneParameter (c1 : PIDController) (c3 : PIDController3D)
    (sub : String) (p : Param) : PIDController × PIDController3D :=
  if sub = "reset_integral" then
    ({ c1 with resetIntSatFlag := p.bval }, { c3 with resetIntSatFlag := p.bval })
  else if sub = "antiwindup_cte" then
    ({ c1 with antiwindupCte := p.nval }, { c3 with antiwindupCte := p.nval })
  else if sub = "alpha" then
    ({ c1 with alpha := p.nval }, { c3 with alpha := p.nval })
  else if sub = "height.kp" then ({ c1 with kp := p.nval }, c3)
  else if sub = "height.ki" then ({ c1 with ki := p.nval }, c3)
  else if sub = "height.kd" then ({ c1 with kd := p.nval }, c3)
  else if sub = "speed.kp.x" then (c1, { c3 with kp := { c3.kp with x := p.nval } })
  else if sub = "speed.kp.y" then (c1, { c3 with kp := { c3.kp with y := p.nval } })
  else if sub = "speed.ki.x" then (c1, { c3 with ki := { c3.ki with x := p.nval } })
  else if sub = "speed.ki.y" then (c1, { c3 with ki := { c3.ki with y := p.nval } })
  else if sub = "speed.kd.x" then (c1, { c3 with kd := { c3.kd with x := p.nval } })
  else if sub = "speed.kd.y" then (c1, { c3 with kd := { c3.kd with y := p.nval } })
  else (c1, c3)

/-- One iteration of the `for (auto &param : parameters)` loop body of
`Plugin::parametersCallback`. -/
def stepParam (p : Param) (s : PluginState) : PluginState :=
  if p.name = "proportional_limitation" then
    let s1 := { s with proportional_limitation := p.bval }
    let r := touchGroup p.name s1.plugin_parameters_to_read
      s1.flags.plugin_parameters_read
    { s1 with
      plugin_parameters_to_read := r.1
      flags := { s1.flags with plugin_parameters_read := r.2 } }
  else if p.name = "use_bypass" then
    let s1 := { s with use_bypass := p.bval }
    let r := touchGroup p.name s1.plugin_parameters_to_read
      s1.flags.plugin_parameters_read
    { s1 with
      plugin_parameters_to_read := r.1
      flags := { s1.flags with plugin_parameters_read := r.2 } }
  else
    let controller := controllerOf p.name
    let sub := subnameOf p.name
    if controller = "position_control" then
      let s1 := { s with
        pid_3D_position := updateController3DParameter s.pid_3D_position sub p }
      let r := touchGroup p.name s1.position_control_parameters_to_read
        s1.flags.position_controller_parameters_read
      { s1 with
        position_control_parameters_to_read := r.1
        flags := { s1.flags with position_controller_parameters_read := r.2 } }
    else if controller = "velocity_control" then
      let s1 := { s with
        pid_3D_velocity := updateController3DParameter s.pid_3D_velocity sub p }
      let r := touchGroup p.name s1.velocity_control_parameters_to_read
        s1.flags.velocity_controller_parameters_read
      { s1 with
        velocity_control_parameters_to_read := r.1
        flags := { s1.flags with velocity_controller_parameters_read := r.2 } }
    else if controller = "speed_in_a_plane_control" then
      let u := updateSpeedInAPlaneParameter s.pid_1D_speed_in_a_plane
        s.pid_3D_speed_in_a_plane sub p
      let s1 := { s with
        pid_1D_speed_in_a_plane := u.1
        pid_3D_speed_in_a_plane := u.2 }
      let r := touchGroup p.name s1.speed_in_a_plane_control_parameters_to_read
        s1.flags.speed_in_a_plane_controller_parameters_read
      { s1 with
        speed_in_a_plane_control_parameters_to_read := r.1
        flags := { s1.flags with
          speed_in_a_plane_controller_parameters_read := r.2 } }
    else if controller = "trajectory_control" then
      let s1 := { s with
        pid_3D_trajectory := updateController3DParameter s.pid_3D_trajectory sub p }
      let r := touchGroup p.name s1.trajectory_control_parameters_to_read
        s1.flags.trajectory_controller_parameters_read
      { s1 with
        trajectory_control_parameters_to_read := r.1
        flags := { s1.flags with trajectory_controller_parameters_read := r.2 } }
    else if controller = "yaw_control" then
      let s1 := { s with
        pid_yaw := updateControllerParameter s.pid_yaw sub p }
      let r := touchGroup p.name s1.yaw_control_parameters_to_read
        s1.flags.yaw_controller_parameters_read
      { s1 with
        yaw_control_parameters_to_read := r.1
        flags := { s1.flags with yaw_controller_parameters_read := r.2 } }
    else s

/-- `Plugin::parametersCallback`: fold the loop body over the parameter
list; the result is created with `successful = true` and never modified
before being returned. -/
def parametersCallback (ps : List Param) (s : PluginState) :
    Bool × PluginState :=
  (true, ps.foldl (fun st p => stepParam p st) s)

/-- `Plugin::updateParams`: the host fetches the named parameters (an
external step, modelled by receiving the fetched values directly) and
returns `parametersCallback(...).successful`. -/
def updateParams (fetched : List Param) (s : PluginState) :
    Bool × PluginState :=
  let r := parametersCallback fetched s
  (r.1, r.2)

/-- `Plugin::resetState`: the vehicle state becomes a default
`UAV_state` (all zero). -/
def resetState (s : PluginState) : PluginState :=
  { s with uav_state := {} }

/-- `Plugin::resetReferences`: the position/yaw references take the
current vehicle position/yaw; the velocity reference becomes zero. -/
def resetReferences (s : PluginState) : PluginState :=
  { s with
    control_ref := { position := s.uav_state.position,
                     velocity := Vec3.zero, yaw := s.uav_state.yaw } }

/-- `Plugin::resetCommands`: the command output becomes zero. -/
def resetCommands (s : PluginState) : PluginState :=
  { s with control_command := { velocity := Vec3.zero, yaw_speed := 0 } }

/-- `Plugin::reset`: reset references, then state, then commands, then
call `resetController` on the yaw, 3-D position, 3-D velocity and 3-D
trajectory handles (the two speed-in-a-plane handles are not touched in
the source). -/
def reset (s : PluginState) : PluginState :=
  let s1 := resetReferences s
  let s2 := resetState s1
  let s3 := resetCommands s2
  { s3 with
    pid_yaw := s3.pid_yaw.resetController
    pid_3D_position := s3.pid_3D_position.resetController
    pid_3D_velocity := s3.pid_3D_velocity.resetController
    pid_3D_trajectory := s3.pid_3D_trajectory.resetController }

/-- `Plugin::updateState`: overwrite position and velocity, write the
yaw angle into the x component of the yaw vector, set
`state_received`. -/
def updateState (pose : PoseMsg) (twist : TwistMsg) (s : PluginState) :
    PluginState :=
  { s with
    uav_state := { position := pose.position,
                   velocity := twist.linear,
                   yaw := { s.uav_state.yaw with x := pose.orientationYaw } }
    flags := { s.flags with state_received := true } }

/-- `Plugin::updateReference(PoseStamped)`: position reference accepted
in POSITION and SPEED_IN_A_PLANE modes (setting `ref_received`); yaw
angle reference accepted in SPEED, POSITION and SPEED_IN_A_PLANE modes
when the yaw mode is YAW_ANGLE. -/
def updateReferencePose (msg : PoseMsg) (s : PluginState) : PluginState :=
  let s1 :=
    if s.control_mode_in.control_mode = CM.POSITION ∨
        s.control_mode_in.control_mode = CM.SPEED_IN_A_PLANE then
      { s with
        control_ref := { s.control_ref with position := msg.position }
        flags := { s.flags with ref_received := true } }
    else s
  if (s1.control_mode_in.control_mode = CM.SPEED ∨
      s1.control_mode_in.control_mode = CM.POSITION ∨
      s1.control_mode_in.control_mode = CM.SPEED_IN_A_PLANE) ∧
      s1.control_mode_in.yaw_mode = CM.YAW_ANGLE then
    { s1 with control_ref := { s1.control_ref with
      yaw := { s1.control_ref.yaw with x := msg.orientationYaw } } }
  else s1

/-- `Plugin::updateReference(TwistStamped)`: in POSITION mode the linear
part is stored as the speed-limit vector and pushed as an
output-saturation bound onto the position, velocity and trajectory
handles, with nothing else changed; in SPEED and SPEED_IN_A_PLANE modes
it sets the velocity reference (and, under YAW_SPEED, the yaw-rate
reference) and marks `ref_received`; all other modes ignore it. -/
def updateReferenceTwist (msg : TwistMsg) (s : PluginState) : PluginState :=
  if s.control_mode_in.control_mode = CM.POSITION then
    { s with
      speed_limits := msg.linear
      pid_3D_position := s.pid_3D_position.setOutputSaturation msg.linear
      pid_3D_velocity := s.pid_3D_velocity.setOutputSaturation msg.linear
      pid_3D_trajectory := s.pid_3D_trajectory.setOutputSaturation msg.linear }
  else if s.control_mode_in.control_mode ≠ CM.SPEED ∧
      s.control_mode_in.control_mode ≠ CM.SPEED_IN_A_PLANE then
    s
  else
    let s1 := { s with control_ref :=
      { s.control_ref with velocity := msg.linear } }
    let s2 :=
      if s1.control_mode_in.yaw_mode = CM.YAW_SPEED then
        { s1 with control_ref := { s1.control_ref with
          yaw := { s1.control_ref.yaw with y := msg.angularZ } } }
      else s1
    { s2 with flags := { s2.flags with ref_received := true } }

/-- A trajectory point: positions, velocities, accelerations
(at least four components each on well-formed input; out-of-range access
is undefined behaviour in the source and modelled by a zero default). -/
structure TrajPoint where
  positions : List ℚ := []
  velocities : List ℚ := []
  accelerations : List ℚ := []
deriving DecidableEq, Repr

/-- `Plugin::updateReference(JointTrajectoryPoint)`: accepted only in
TRAJECTORY mode; populates position, velocity and the (angle, rate,
acceleration) yaw vector and marks `ref_received`. -/
def updateReferenceTraj (msg : TrajPoint) (s : PluginState) : PluginState :=
  if s.control_mode_in.control_mode ≠ CM.TRAJECTORY then s
  else
    { s with
      control_ref :=
        { position := ⟨msg.positions.getD 0 0, msg.positions.getD 1 0,
                       msg.positions.getD 2 0⟩,
          velocity := ⟨msg.velocities.getD 0 0, msg.velocities.getD 1 0,
                       msg.velocities.getD 2 0⟩,
          yaw := ⟨msg.positions.getD 3 0, msg.velocities.getD 3 0,
                 msg.accelerations.getD 3 0⟩ }
      flags := { s.flags with ref_received := true } }

/-- `Plugin::setMode`: HOVER forces yaw mode YAW_ANGLE and the
LOCAL_ENU reference frame and keeps the received flags; any other input
mode clears `ref_received`/`state_received` and adopts the input mode.
Then the frame identifiers are resolved from the adopted mode.  The
source assigns `input_pose_frame_id_` twice in the POSITION/TRAJECTORY
branch (and never assigns `input_twist_frame_id_` there); the duplicate
assignment is collapsed here.  Always returns `true`. -/
def setMode (in_mode out_mode : ControlMode) (s : PluginState) :
    Bool × PluginState :=
  let s1 :=
    if in_mode.control_mode = CM.HOVER then
      { s with
        control_mode_in := { control_mode := in_mode.control_mode,
                             yaw_mode := CM.YAW_ANGLE,
                             reference_frame := CM.LOCAL_ENU_FRAME } }
    else
      { s with
        flags := { s.flags with
                   ref_received := false
                   state_received := false }
        control_mode_in := in_mode }
  let s2 := { s1 with control_mode_out := out_mode }
  let s3 :=
    if s2.control_mode_in.control_mode = CM.POSITION ∨
        s2.control_mode_in.control_mode = CM.TRAJECTORY then
      { s2 with
        input_pose_frame_id := s2.enu_frame_id
        output_twist_frame_id := s2.enu_frame_id }
    else if s2.control_mode_in.control_mode = CM.SPEED ∨
        s2.control_mode_in.control_mode = CM.SPEED_IN_A_PLANE then
      let s2b := { s2 with input_pose_frame_id := s2.enu_frame_id }
      if s2b.control_mode_out.reference_frame = CM.BODY_FLU_FRAME then
        { s2b with
          input_twist_frame_id := s2b.flu_frame_id
          output_twist_frame_id := s2b.flu_frame_id }
      else
        { s2b with
          input_twist_frame_id := s2b.enu_frame_id
          output_twist_frame_id := s2b.enu_frame_id }
    else s2
  (true, s3)

/-- `Plugin::getDesiredPoseFrameId`. -/
def getDesiredPoseFrameId (s : PluginState) : String :=
  s.input_pose_frame_id

/-- `Plugin::getDesiredTwistFrameId`. -/
def getDesiredTwistFrameId (s : PluginState) : String :=
  s.input_twist_frame_id

/-- Modelled from the spec: the external `as2::frame::angleMinError`
shortest-path angular error.  No claim depends on the wrapping, and over
the rationals (no pi) it is modelled as the plain difference. -/
def angleMinError (ref meas : ℚ) : ℚ := ref - meas

/-- Identifies which regulator handle ran `computeControl` during a
cycle. -/
inductive RegId where
  | yaw1D
  | pos3D
  | vel3D
  | siap1D
  | siap3D
  | traj3D
deriving DecidableEq, Repr

/-- The twist message written by `Plugin::getOutput`. -/
structure TwistOut where
  frame_id : String
  linear : Vec3
  angular : Vec3
deriving DecidableEq, Repr

/-- `Plugin::getOutput`: stamp the output twist frame, copy the command
velocity into the linear part and the command yaw speed into angular z
(always returns true in the source). -/
def getOutput (s : PluginState) : TwistOut :=
  ⟨s.output_twist_frame_id, s.control_command.velocity,
    ⟨0, 0, s.control_command.yaw_speed⟩⟩

/-- The observable outcome of one `Plugin::computeOutput` cycle: the
returned boolean, the post-call member state, which regulator handles
ran `computeControl` (in order) and the output twist when one was
written. -/
structure ComputeResult where
  ok : Bool
  state : PluginState
  calls : List RegId
  twist : Option TwistOut
deriving Repr

/-- The translational branch of `Plugin::computeOutput` (the switch on
`control_mode_in_.control_mode`): `none` models `return false` (the
rejecting paths mutate nothing inside the branch). -/
def translational (dt : ℚ) (s : PluginState) :
    Option (PluginState × List RegId) :=
  if s.control_mode_in.control_mode = CM.HOVER then
    if s.flags.position_controller_parameters_read = false then none
    else
      let r := s.pid_3D_position.computeControl dt s.uav_state.position
        s.control_ref.position
      some ({ s with
        control_command := { s.control_command with velocity := r.1 }
        pid_3D_position := r.2 }, [RegId.pos3D])
  else if s.control_mode_in.control_mode = CM.POSITION then
    if s.flags.position_controller_parameters_read = false then none
    else
      let r := s.pid_3D_position.computeControl dt s.uav_state.position
        s.control_ref.position
      some ({ s with
        control_command := { s.control_command with velocity := r.1 }
        pid_3D_position := r.2 }, [RegId.pos3D])
  else if s.control_mode_in.control_mode = CM.SPEED then
    if s.use_bypass then
      some ({ s with control_command :=
        { s.control_command with velocity := s.control_ref.velocity } }, [])
    else
      let r := s.pid_3D_velocity.computeControl dt s.uav_state.velocity
        s.control_ref.velocity
      some ({ s with
        control_command := { s.control_command with velocity := r.1 }
        pid_3D_velocity := r.2 }, [RegId.vel3D])
  else if s.control_mode_in.control_mode = CM.SPEED_IN_A_PLANE then
    let hor :=
      if s.use_bypass then
        ({ s with control_command :=
          { s.control_command with velocity := s.control_ref.velocity } },
          ([] : List RegId))
      else
        let r := s.pid_3D_speed_in_a_plane.computeControl dt
          s.uav_state.velocity s.control_ref.velocity
        ({ s with
          control_command := { s.control_command with velocity := r.1 }
          pid_3D_speed_in_a_plane := r.2 }, [RegId.siap3D])
    let s1 := hor.1
    let r2 := s1.pid_1D_speed_in_a_plane.computeControlMeasRef dt
      s1.uav_state.position.z s1.control_ref.position.z
    some ({ s1 with
      control_command := { s1.control_command with
        velocity := { s1.control_command.velocity with z := r2.1 } }
      pid_1D_speed_in_a_plane := r2.2 }, hor.2 ++ [RegId.siap1D])
  else if s.control_mode_in.control_mode = CM.TRAJECTORY then
    if s.flags.trajectory_controller_parameters_read = false then none
    else
      let r := s.pid_3D_trajectory.computeControlTraj dt
        s.uav_state.position s.control_ref.position
        s.uav_state.velocity s.control_ref.velocity
      some ({ s with
        control_command := { s.control_command with velocity := r.1 }
        pid_3D_trajectory := r.2 }, [RegId.traj3D])
  else none

/-- The yaw branch of `Plugin::computeOutput` (the switch on
`control_mode_in_.yaw_mode`): `none` models `return false`. -/
def yawBranch (dt : ℚ) (s : PluginState) :
    Option (PluginState × List RegId) :=
  if s.control_mode_in.yaw_mode = CM.YAW_ANGLE then
    if s.flags.yaw_controller_parameters_read = false then none
    else
      let e := angleMinError s.control_ref.yaw.x s.uav_state.yaw.x
      let r := s.pid_yaw.computeControl dt e
      some ({ s with
        control_command := { s.control_command with yaw_speed := r.1 }
        pid_yaw := r.2 }, [RegId.yaw1D])
  else if s.control_mode_in.yaw_mode = CM.YAW_SPEED then
    some ({ s with control_command :=
      { s.control_command with yaw_speed := s.control_ref.yaw.y } }, [])
  else none

/-- `Plugin::computeOutput`: the four-flag readiness gate (each failed
check returns false before anything is mutated), then `resetCommands`,
then the translational branch, then the yaw branch, then `getOutput`. -/
def computeOutput (dt : ℚ) (s : PluginState) : ComputeResult :=
  if s.flags.state_received = false then ⟨false, s, [], none⟩
  else if s.flags.plugin_parameters_read = false then ⟨false, s, [], none⟩
  else if s.flags.position_controller_parameters_read = false then
    ⟨false, s, [], none⟩
  else if s.flags.ref_received = false then ⟨false, s, [], none⟩
  else
    let s0 := resetCommands s
    match translational dt s0 with
    | none => ⟨false, s0, [], none⟩
    | some (s1, c1) =>
      match yawBranch dt s1 with
      | none => ⟨false, s1, c1, none⟩
      | some (s2, c2) => ⟨true, s2, c1 ++ c2, some (getOutput s2)⟩

/-- The control-mode values the `computeOutput` switch recognises. -/
def knownControlMode (m : Nat) : Prop :=
  m = CM.HOVER ∨ m = CM.POSITION ∨ m = CM.SPEED ∨
  m = CM.SPEED_IN_A_PLANE ∨ m = CM.TRAJECTORY

instance (m : Nat) : Decidable (knownControlMode m) := by
  unfold knownControlMode
  infer_instance

/-- The yaw-mode values the `computeOutput` switch recognises. -/
def knownYawMode (m : Nat) : Prop :=
  m = CM.YAW_ANGLE ∨ m = CM.YAW_SPEED

instance (m : Nat) : Decidable (knownYawMode m) := by
  unfold knownYawMode
  infer_instance

/-- The four-flag precondition gate of `computeOutput`. -/
def gateReady (s : PluginState) : Prop :=
  s.flags.state_received = true ∧ s.flags.plugin_parameters_read = true ∧
  s.flags.position_controller_parameters_read = true ∧
  s.flags.ref_received = true

instance (s : PluginState) : Decidable (gateReady s) := by
  unfold gateReady
  infer_instance

/-- The six parameter groups tracked by the readiness flags. -/
inductive PGroup where
  | plugin
  | position
  | velocity
  | siap
  | trajectory
  | yaw
deriving DecidableEq, Repr

/-- The group, if any, a parameter name is routed to by the dispatch
chain of `parametersCallback` (same guards, same order). -/
def routeOf (n : String) : Option PGroup :=
  if n = "proportional_limitation" then some PGroup.plugin
  else if n = "use_bypass" then some PGroup.plugin
  else if controllerOf n = "position_control" then some PGroup.position
  else if controllerOf n = "velocity_control" then some PGroup.velocity
  else if controllerOf n = "speed_in_a_plane_control" then some PGroup.siap
  else if controllerOf n = "trajectory_control" then some PGroup.trajectory
  else if controllerOf n = "yaw_control" then some PGroup.yaw
  else none

/-- The readiness flag of a parameter group. -/
def groupFlag (g : PGroup) (s : PluginState) : Bool :=
  match g with
  | PGroup.plugin => s.flags.plugin_parameters_read
  | PGroup.position => s.flags.position_controller_parameters_read
  | PGroup.velocity => s.flags.velocity_controller_parameters_read
  | PGroup.siap => s.flags.speed_in_a_plane_controller_parameters_read
  | PGroup.trajectory => s.flags.trajectory_controller_parameters_read
  | PGroup.yaw => s.flags.yaw_controller_parameters_read

/-- The outstanding expected-name list of a parameter group. -/
def groupList (g : PGroup) (s : PluginState) : List String :=
  match g with
  | PGroup.plugin => s.plugin_parameters_to_read
  | PGroup.position => s.position_control_parameters_to_read
  | PGroup.velocity => s.velocity_control_parameters_to_read
  | PGroup.siap => s.speed_in_a_plane_control_parameters_to_read
  | PGroup.trajectory => s.trajectory_control_parameters_to_read
  | PGroup.yaw => s.yaw_control_parameters_to_read

/-- One parameter event as seen by group `g`: the guarded
`checkParamList` when the name routes to `g`, the identity otherwise. -/
def groupStep (g : PGroup) (n : String) (lf : List String × Bool) :
    List String × Bool :=
  if routeOf n = some g then touchGroup n lf.1 lf.2 else lf

/-- A sequence of parameter events as seen by group `g`. -/
def runGroup (g : PGroup) (ns : List String) (lf : List String × Bool) :
    List String × Bool :=
  ns.foldl (fun a n => groupStep g n a) lf

/-!
Concrete states and inputs used by the witnesses, counterexamples and
failing-input evaluations below.
-/

/-- All readiness flags set. -/
def readyFlags : ControlFlags :=
  { state_received := true
    ref_received := true
    plugin_parameters_read := true
    position_controller_parameters_read := true
    velocity_controller_parameters_read := true
    speed_in_a_plane_controller_parameters_read := true
    trajectory_controller_parameters_read := true
    yaw_controller_parameters_read := true }

/-- A fully ready state whose active control mode is outside the known
variant set and whose command output is nonzero. -/
def sUnknownCM : PluginState :=
  { flags := readyFlags
    control_mode_in := { control_mode := 99, yaw_mode := CM.YAW_SPEED }
    control_command := { velocity := ⟨1, 2, 3⟩, yaw_speed := 4 } }

/-- A state with a nonzero vehicle position and yaw. -/
def sVehicle : PluginState :=
  { uav_state := { position := ⟨1, 2, 3⟩, yaw := ⟨5, 0, 0⟩ } }

/-- A state whose speed-in-a-plane regulators hold nonzero integrator
memory. -/
def sSiapMem : PluginState :=
  { pid_1D_speed_in_a_plane := { integral := 5 }
    pid_3D_speed_in_a_plane := { integral := ⟨7, 0, 0⟩ } }

/-- The SPEED-mode leniency scenario: all gate flags set, velocity
parameters unread, bypass off, measured velocity zero, reference
velocity (1,0,0). -/
def sSpeedScenario : PluginState :=
  { flags := { readyFlags with velocity_controller_parameters_read := false }
    control_mode_in := { control_mode := CM.SPEED, yaw_mode := CM.YAW_SPEED }
    uav_state := { velocity := ⟨0, 0, 0⟩ }
    control_ref := { velocity := ⟨1, 0, 0⟩ } }

/-- A state whose input twist frame is currently the body (FLU)
frame. -/
def sBodyTwist : PluginState :=
  { input_twist_frame_id := "base_link" }

/-- A state whose active control mode is POSITION. -/
def sPosMode : PluginState :=
  { control_mode_in := { control_mode := CM.POSITION } }

/-- A state far from any known mode, used to exercise mode-independent
facts. -/
def sIdle : PluginState := {}

/-- A state whose position group still expects one parameter name. -/
def sOneParam : PluginState :=
  { position_control_parameters_to_read := ["position_control.kp.x"] }

/-- A POSITION-mode input `ControlMode` message. -/
def cmPos : ControlMode := { control_mode := CM.POSITION }

/-- A SPEED-mode input `ControlMode` message with yaw-speed yaw mode. -/
def cmSpeedYs : ControlMode :=
  { control_mode := CM.SPEED, yaw_mode := CM.YAW_SPEED }

/-- A HOVER-mode input `ControlMode` message carrying a non-default yaw
mode and reference frame. -/
def cmHoverOdd : ControlMode :=
  { control_mode := CM.HOVER, yaw_mode := CM.YAW_SPEED,
    reference_frame := CM.BODY_FLU_FRAME }

/-- A twist message with nonzero linear part. -/
def mTwist : TwistMsg := { linear := ⟨1, 2, 3⟩, angularZ := 4 }

/-- The parameter event completing `sOneParam`'s position group. -/
def pKpX : Param := { name := "position_control.kp.x", nval := 9 }

/-!
Helper lemmas shared by the claim theorems.
-/

lemma computeOutput_not_ready (dt : ℚ) (s : PluginState) (h : ¬ gateReady s) :
    computeOutput dt s = ⟨false, s, [], none⟩ := by
  unfold computeOutput
  split_ifs with h1 h2 h3 h4
  · rfl
  · rfl
  · rfl
  · rfl
  · exact absurd ⟨by simpa using h1, by simpa using h2, by simpa using h3,
      by simpa using h4⟩ h

lemma computeOutput_ready (dt : ℚ) (s : PluginState) (h : gateReady s) :
    computeOutput dt s =
      match translational dt (resetCommands s) with
      | none => ⟨false, resetCommands s, [], none⟩
      | some (s1, c1) =>
        match yawBranch dt s1 with
        | none => ⟨false, s1, c1, none⟩
        | some (s2, c2) => ⟨true, s2, c1 ++ c2, some (getOutput s2)⟩ := by
  obtain ⟨h1, h2, h3, h4⟩ := h
  unfold computeOutput
  simp [h1, h2, h3, h4]

lemma translational_unknown (dt : ℚ) (s : PluginState)
    (h : ¬ knownControlMode s.control_mode_in.control_mode) :
    translational dt s = none := by
  simp only [knownControlMode, not_or] at h
  obtain ⟨n1, n2, n3, n4, n5⟩ := h
  unfold translational
  simp [n1, n2, n3, n4, n5]

lemma yawBranch_unknown (dt : ℚ) (s : PluginState)
    (h : ¬ knownYawMode s.control_mode_in.yaw_mode) :
    yawBranch dt s = none := by
  simp only [knownYawMode, not_or] at h
  obtain ⟨n1, n2⟩ := h
  unfold yawBranch
  simp [n1, n2]

lemma translational_yaw_speed (dt : ℚ) (s s1 : PluginState) (c : List RegId)
    (h : translational dt s = some (s1, c)) :
    s1.control_command.yaw_speed = s.control_command.yaw_speed := by
  unfold translational at h
  split_ifs at h <;>
    first
    | exact Option.noConfusion h
    | (rw [Option.some.injEq, Prod.mk.injEq] at h
       obtain ⟨h1, h2⟩ := h
       subst h1
       rfl)

/-- C1: whenever any of the four flags `state_received`,
`plugin_parameters_read`, `position_controller_parameters_read`,
`ref_received` is false, `computeOutput` returns not-ok, runs no
regulator `computeControl`, and leaves the whole member state (so in
particular every regulator's integrator state) unchanged. -/
theorem c1_gate_rejection (dt : ℚ) (s : PluginState)
    (h : s.flags.state_received = false ∨
      s.flags.plugin_parameters_read = false ∨
      s.flags.position_controller_parameters_read = false ∨
      s.flags.ref_received = false) :
    computeOutput dt s = ⟨false, s, [], none⟩ := by
  apply computeOutput_not_ready
  intro hg
  obtain ⟨g1, g2, g3, g4⟩ := hg
  rcases h with h | h | h | h <;> simp_all

/-- Witness for C1 at a default (never handshaken) state. -/
theorem c1_gate_rejection_witness :
    sIdle.flags.state_received = false ∧
    computeOutput 1 sIdle = ⟨false, sIdle, [], none⟩ :=
  ⟨rfl, c1_gate_rejection 1 sIdle (Or.inl rfl)⟩

/-- C3 counterexample: at a state with nonzero vehicle position/yaw,
`reset()` does not zero the reference state (it copies the pre-reset
vehicle position and yaw into it) and `reset()` twice differs from
`reset()` once. -/
theorem c3_counterexample :
    (reset sVehicle).control_ref ≠ ({} : UAVState) ∧
    reset (reset sVehicle) ≠ reset sVehicle := by decide

/-- C3 amended: `reset()` zeroes VehicleState and CommandOutput, zeroes
the velocity reference but copies the pre-call vehicle position and yaw
into the position/yaw reference, preserves all flags, and is idempotent
exactly when the vehicle position and yaw are already zero (a second
`reset()` zeroes the whole reference). -/
theorem c3_amended (s : PluginState) :
    (reset s).uav_state = ({} : UAVState) ∧
    (reset s).control_command = ({} : UAVCommand) ∧
    (reset s).control_ref =
      { position := s.uav_state.position, velocity := Vec3.zero,
        yaw := s.uav_state.yaw } ∧
    (reset s).flags = s.flags ∧
    (reset (reset s)).control_ref = ({} : UAVState) ∧
    (reset (reset s) = reset s ↔
      s.uav_state.position = Vec3.zero ∧ s.uav_state.yaw = Vec3.zero) := by
  refine ⟨rfl, rfl, rfl, rfl, rfl, ?_⟩
  constructor
  · intro h
    have hp := congrArg (fun st => st.control_ref.position) h
    have hy := congrArg (fun st => st.control_ref.yaw) h
    exact ⟨hp.symm, hy.symm⟩
  · rintro ⟨h1, h2⟩
    unfold reset resetCommands resetState resetReferences
      PIDController.resetController PIDController3D.resetController
    rw [h1, h2]

/-- Witness for C3 amended at the nonzero-vehicle state. -/
theorem c3_amended_witness :
    (reset sVehicle).control_ref =
      { position := ⟨1, 2, 3⟩, velocity := Vec3.zero, yaw := ⟨5, 0, 0⟩ } ∧
    reset (reset sVehicle) ≠ reset sVehicle := by
  constructor
  · exact (c3_amended sVehicle).2.2.1
  · intro hEq
    exact absurd ((c3_amended sVehicle).2.2.2.2.2.mp hEq).1 (by decide)

/-- C4 counterexample: `reset()` leaves the 1-D and 3-D
speed-in-a-plane regulators' integrator memory untouched, so at a state
where they hold nonzero memory the claim's "clears every regulator"
fails. -/
theorem c4_counterexample :
    (reset sSiapMem).pid_1D_speed_in_a_plane ≠
      sSiapMem.pid_1D_speed_in_a_plane.resetController ∧
    (reset sSiapMem).pid_3D_speed_in_a_plane ≠
      sSiapMem.pid_3D_speed_in_a_plane.resetController ∧
    (reset sSiapMem).pid_1D_speed_in_a_plane.integral = 5 := by decide

/-- C4 amended: `reset()` calls `resetController` on exactly the yaw,
3-D position, 3-D velocity and 3-D trajectory regulator handles, while
the 1-D and 3-D speed-in-a-plane handles keep their internal memory. -/
theorem c4_amended (s : PluginState) :
    (reset s).pid_yaw = s.pid_yaw.resetController ∧
    (reset s).pid_3D_position = s.pid_3D_position.resetController ∧
    (reset s).pid_3D_velocity = s.pid_3D_velocity.resetController ∧
    (reset s).pid_3D_trajectory = s.pid_3D_trajectory.resetController ∧
    (reset s).pid_1D_speed_in_a_plane = s.pid_1D_speed_in_a_plane ∧
    (reset s).pid_3D_speed_in_a_plane = s.pid_3D_speed_in_a_plane :=
  ⟨rfl, rfl, rfl, rfl, rfl, rfl⟩

/-- C5: `setMode` always returns true and never changes a
parameter-readiness flag; a non-HOVER input mode clears
`state_received` and `ref_received`, while HOVER leaves both unchanged
and forces yaw mode YAW_ANGLE and the LOCAL_ENU reference frame. -/
theorem c5_setMode_behaviour (s : PluginState) (im om : ControlMode) :
    (setMode im om s).1 = true ∧
    (setMode im om s).2.flags.plugin_parameters_read =
      s.flags.plugin_parameters_read ∧
    (setMode im om s).2.flags.position_controller_parameters_read =
      s.flags.position_controller_parameters_read ∧
    (setMode im om s).2.flags.velocity_controller_parameters_read =
      s.flags.velocity_controller_parameters_read ∧
    (setMode im om s).2.flags.speed_in_a_plane_controller_parameters_read =
      s.flags.speed_in_a_plane_controller_parameters_read ∧
    (setMode im om s).2.flags.trajectory_controller_parameters_read =
      s.flags.trajectory_controller_parameters_read ∧
    (setMode im om s).2.flags.yaw_controller_parameters_read =
      s.flags.yaw_controller_parameters_read ∧
    (im.control_mode ≠ CM.HOVER →
      (setMode im om s).2.flags.state_received = false ∧
      (setMode im om s).2.flags.ref_received = false) ∧
    (im.control_mode = CM.HOVER →
      (setMode im om s).2.flags.state_received = s.flags.state_received ∧
      (setMode im om s).2.flags.ref_received = s.flags.ref_received ∧
      (setMode im om s).2.control_mode_in.yaw_mode = CM.YAW_ANGLE ∧
      (setMode im om s).2.control_mode_in.reference_frame =
        CM.LOCAL_ENU_FRAME) := by
  unfold setMode
  by_cases h : im.control_mode = CM.HOVER <;> simp [h] <;> split_ifs <;>
    simp_all

/-- Witness for C5: one non-HOVER switch and one HOVER switch. -/
theorem c5_setMode_behaviour_witness :
    (setMode cmSpeedYs cmPos sVehicle).1 = true ∧
    (setMode cmSpeedYs cmPos sVehicle).2.flags.state_received = false ∧
    (setMode cmSpeedYs cmPos sVehicle).2.flags.ref_received = false ∧
    (setMode cmHoverOdd cmPos sVehicle).2.control_mode_in.yaw_mode =
      CM.YAW_ANGLE ∧
    (setMode cmHoverOdd cmPos sVehicle).2.control_mode_in.reference_frame =
      CM.LOCAL_ENU_FRAME := by
  refine ⟨(c5_setMode_behaviour sVehicle cmSpeedYs cmPos).1, ?_, ?_, ?_, ?_⟩
  · exact ((c5_setMode_behaviour sVehicle cmSpeedYs
      cmPos).2.2.2.2.2.2.2.1 (by decide)).1
  · exact ((c5_setMode_behaviour sVehicle cmSpeedYs
      cmPos).2.2.2.2.2.2.2.1 (by decide)).2
  · exact ((c5_setMode_behaviour sVehicle cmHoverOdd
      cmPos).2.2.2.2.2.2.2.2 (by decide)).2.2.1
  · exact ((c5_setMode_behaviour sVehicle cmHoverOdd
      cmPos).2.2.2.2.2.2.2.2 (by decide)).2.2.2

/-- C8 evaluated at the failing input: after `setMode(POSITION,
POSITION)` from a state whose input twist frame is the body frame, the
desired pose frame and the output twist frame are the world frame but
`getDesiredTwistFrameId` still returns the stale body frame (the source
assigns `input_pose_frame_id_` twice instead of setting
`input_twist_frame_id_`). -/
theorem c8_position_mode_frame_slip :
    getDesiredPoseFrameId (setMode cmPos cmPos sBodyTwist).2 = "odom" ∧
    (getOutput (setMode cmPos cmPos sBodyTwist).2).frame_id = "odom" ∧
    getDesiredTwistFrameId (setMode cmPos cmPos sBodyTwist).2 =
      "base_link" ∧
    ("base_link" : String) ≠ "odom" := by decide

/-- C9: a twist reference in POSITION mode only stores the speed-limit
vector and pushes it as an output-saturation bound onto the position,
velocity and trajectory handles (no `ref_received`, no velocity
reference, nothing else); in any mode other than POSITION, SPEED and
SPEED_IN_A_PLANE it changes nothing at all. -/
theorem c9_twist_reference (m : TwistMsg) (s : PluginState) :
    (s.control_mode_in.control_mode = CM.POSITION →
      updateReferenceTwist m s =
        { s with
          speed_limits := m.linear
          pid_3D_position := s.pid_3D_position.setOutputSaturation m.linear
          pid_3D_velocity := s.pid_3D_velocity.setOutputSaturation m.linear
          pid_3D_trajectory :=
            s.pid_3D_trajectory.setOutputSaturation m.linear }) ∧
    (s.control_mode_in.control_mode ≠ CM.POSITION →
      s.control_mode_in.control_mode ≠ CM.SPEED →
      s.control_mode_in.control_mode ≠ CM.SPEED_IN_A_PLANE →
      updateReferenceTwist m s = s) := by
  constructor
  · intro h
    unfold updateReferenceTwist
    simp [h]
  · intro h1 h2 h3
    unfold updateReferenceTwist
    simp [h1, h2, h3]

/-- Witness for C9: the POSITION-mode branch and the ignore branch. -/
theorem c9_twist_reference_witness :
    updateReferenceTwist mTwist sPosMode =
      { sPosMode with
        speed_limits := mTwist.linear
        pid_3D_position := sPosMode.pid_3D_position.setOutputSaturation
          mTwist.linear
        pid_3D_velocity := sPosMode.pid_3D_velocity.setOutputSaturation
          mTwist.linear
        pid_3D_trajectory := sPosMode.pid_3D_trajectory.setOutputSaturation
          mTwist.linear } ∧
    updateReferenceTwist mTwist sIdle = sIdle :=
  ⟨(c9_twist_reference mTwist sPosMode).1 rfl,
   (c9_twist_reference mTwist sIdle).2 (by decide) (by decide) (by decide)⟩

/-- C10: `parametersCallback` (and `updateParams` on the fetched
values) returns successful for every input list; unrecognized group
tags and leaf names are ignored without failing. -/
theorem c10_params_always_successful (ps : List Param) (s : PluginState) :
    (parametersCallback ps s).1 = true ∧ (updateParams ps s).1 = true :=
  ⟨rfl, rfl⟩

/-- C2 counterexample: at a fully ready state with an unknown control
mode and a nonzero prior command, `computeOutput` does return not-ok but
`resetCommands` has already zeroed CommandOutput, so it is not left as
it was before the call. -/
theorem c2_counterexample :
    ¬ knownControlMode sUnknownCM.control_mode_in.control_mode ∧
    (computeOutput 1 sUnknownCM).ok = false ∧
    (computeOutput 1 sUnknownCM).state.control_command ≠
      sUnknownCM.control_command := by decide

lemma translational_mode_eq (dt : ℚ) (s s1 : PluginState) (c : List RegId)
    (h : translational dt s = some (s1, c)) :
    s1.control_mode_in = s.control_mode_in := by
  unfold translational at h
  split_ifs at h <;>
    first
    | exact Option.noConfusion h
    | (rw [Option.some.injEq, Prod.mk.injEq] at h
       obtain ⟨h1, h2⟩ := h
       subst h1
       rfl)

/-- C2 amended: with an unknown control mode or yaw mode,
`computeOutput` returns not-ok; if the readiness gate fails the state is
unchanged, while if it passes CommandOutput has been zeroed by
`resetCommands` rather than preserved: the yaw speed ends zero, and with
an unknown control mode the whole CommandOutput ends zero. -/
theorem c2_amended (dt : ℚ) (s : PluginState)
    (h : ¬ knownControlMode s.control_mode_in.control_mode ∨
      ¬ knownYawMode s.control_mode_in.yaw_mode) :
    (computeOutput dt s).ok = false ∧
    (¬ gateReady s → (computeOutput dt s).state = s) ∧
    (gateReady s →
      (computeOutput dt s).state.control_command.yaw_speed = 0 ∧
      (¬ knownControlMode s.control_mode_in.control_mode →
        (computeOutput dt s).state.control_command =
          ({} : UAVCommand))) := by
  by_cases hg : gateReady s
  · rw [computeOutput_ready dt s hg]
    rcases h with hcm | hym
    · have ht : translational dt (resetCommands s) = none :=
        translational_unknown dt (resetCommands s) hcm
      rw [ht]
      exact ⟨rfl, fun hng => absurd hg hng, fun _ => ⟨rfl, fun _ => rfl⟩⟩
    · cases htr : translational dt (resetCommands s) with
      | none =>
        exact ⟨rfl, fun hng => absurd hg hng, fun _ => ⟨rfl, fun _ => rfl⟩⟩
      | some p =>
        obtain ⟨s1, c1⟩ := p
        have hmode : s1.control_mode_in = (resetCommands s).control_mode_in :=
          translational_mode_eq dt (resetCommands s) s1 c1 htr
        have hyb : yawBranch dt s1 = none := by
          apply yawBranch_unknown
          rw [hmode]
          exact hym
        dsimp only
        rw [hyb]
        refine ⟨rfl, fun hng => absurd hg hng, fun _ => ⟨?_, fun hcm => ?_⟩⟩
        · exact translational_yaw_speed dt (resetCommands s) s1 c1 htr
        · rw [translational_unknown dt (resetCommands s) hcm] at htr
          exact Option.noConfusion htr
  · rw [computeOutput_not_ready dt s hg]
    exact ⟨rfl, fun _ => rfl, fun hg2 => absurd hg2 hg⟩

/-- Witness for C2 amended at the ready unknown-mode state. -/
theorem c2_amended_witness :
    (computeOutput 1 sUnknownCM).ok = false ∧
    (computeOutput 1 sUnknownCM).state.control_command =
      ({} : UAVCommand) := by
  refine ⟨(c2_amended 1 sUnknownCM (Or.inl (by decide))).1, ?_⟩
  exact ((c2_amended 1 sUnknownCM (Or.inl (by decide))).2.2
    (by decide)).2 (by decide)

/-- C7: in SPEED mode with bypass off and velocity parameters unread,
the cycle is not rejected: the velocity regulator still runs on
(measured velocity, reference velocity), and provided the yaw branch
succeeds `computeOutput` returns ok. -/
theorem c7_speed_mode_lenient (dt : ℚ) (s : PluginState)
    (hg : gateReady s)
    (hcm : s.control_mode_in.control_mode = CM.SPEED)
    (hb : s.use_bypass = false)
    (_hv : s.flags.velocity_controller_parameters_read = false)
    (hy : s.control_mode_in.yaw_mode = CM.YAW_SPEED ∨
      (s.control_mode_in.yaw_mode = CM.YAW_ANGLE ∧
        s.flags.yaw_controller_parameters_read = true)) :
    (computeOutput dt s).ok = true ∧
    RegId.vel3D ∈ (computeOutput dt s).calls ∧
    (computeOutput dt s).state.control_command.velocity =
      (s.pid_3D_velocity.computeControl dt s.uav_state.velocity
        s.control_ref.velocity).1 ∧
    (computeOutput dt s).state.pid_3D_velocity =
      (s.pid_3D_velocity.computeControl dt s.uav_state.velocity
        s.control_ref.velocity).2 := by
  obtain ⟨g1, g2, g3, g4⟩ := hg
  unfold computeOutput translational yawBranch resetCommands
  rcases hy with hys | ⟨hya, hyr⟩
  · simp [g1, g2, g3, g4, hcm, hb, hys, CM.SPEED, CM.HOVER,
      CM.POSITION, CM.YAW_ANGLE, CM.YAW_SPEED]
  · simp [g1, g2, g3, g4, hcm, hb, hya, hyr, CM.SPEED, CM.HOVER,
      CM.POSITION, CM.YAW_ANGLE, CM.YAW_SPEED]

/-- Witness for C7 at the spec scenario (measured velocity zero,
reference velocity (1,0,0), dt = 1/10, fresh zero-gain regulator):
the cycle is accepted and the command equals the regulator output,
here zero. -/
theorem c7_speed_mode_lenient_witness :
    (computeOutput (1 / 10) sSpeedScenario).ok = true ∧
    (computeOutput (1 / 10) sSpeedScenario).state.control_command.velocity =
      Vec3.zero := by
  have h := c7_speed_mode_lenient (1 / 10) sSpeedScenario (by decide)
    (by decide) (by decide) (by decide) (Or.inl (by decide))
  refine ⟨h.1, h.2.2.1.trans ?_⟩
  simp [sSpeedScenario, PIDController3D.computeControl, Vec3.sub, Vec3.add,
    Vec3.mulE, Vec3.smul, Vec3.zero]

lemma runGroup_cons (g : PGroup) (n : String) (ns : List String)
    (lf : List String × Bool) :
    runGroup g (n :: ns) lf = runGroup g ns (groupStep g n lf) := rfl

lemma groupStep_flag_true (g : PGroup) (n : String)
    (lf : List String × Bool) (h : lf.2 = true) :
    (groupStep g n lf).2 = true := by
  unfold groupStep touchGroup
  split_ifs <;> simp_all

lemma runGroup_flag_mono (g : PGroup) (ns : List String)
    (lf : List String × Bool) (h : lf.2 = true) :
    (runGroup g ns lf).2 = true := by
  induction ns generalizing lf with
  | nil => exact h
  | cons n ns ih => exact ih _ (groupStep_flag_true g n lf h)

set_option maxHeartbeats 1600000 in
lemma groupProj_step (g : PGroup) (p : Param) (s : PluginState) :
    (groupList g (stepParam p s), groupFlag g (stepParam p s)) =
      groupStep g p.name (groupList g s, groupFlag g s) := by
  cases g <;>
    (unfold stepParam groupStep routeOf
     split_ifs <;> simp_all [groupList, groupFlag, touchGroup])

lemma groupProj_callback (g : PGroup) (ps : List Param) (s : PluginState) :
    (groupList g (parametersCallback ps s).2,
      groupFlag g (parametersCallback ps s).2) =
      runGroup g (ps.map Param.name) (groupList g s, groupFlag g s) := by
  induction ps generalizing s with
  | nil => rfl
  | cons p ps ih =>
    have h1 : (parametersCallback (p :: ps) s).2 =
        (parametersCallback ps (stepParam p s)).2 := rfl
    rw [h1, ih (stepParam p s), groupProj_step]
    rfl

lemma checkParamList_false (n : String) (l : List String) :
    checkParamList n l false =
      (l.filter (fun q => q ≠ n),
        if l.filter (fun q => q ≠ n) = [] then true else false) := by
  unfold checkParamList
  simp [List.length_eq_zero]

lemma runGroup_flag_iff (g : PGroup) (ns : List String) (l : List String)
    (hl : l ≠ []) (hw : ∀ m ∈ l, routeOf m = some g) :
    ((runGroup g ns (l, false)).2 = true ↔ ∀ m ∈ l, m ∈ ns) := by
  induction ns generalizing l with
  | nil =>
    cases l with
    | nil => exact absurd rfl hl
    | cons a l2 =>
      simp only [runGroup, List.foldl_nil]
      constructor
      · intro h
        exact absurd h (by simp)
      · intro h
        exact absurd (h a (by simp)) (by simp)
  | cons n ns ih =>
    rw [runGroup_cons]
    by_cases hr : routeOf n = some g
    · have hstep : groupStep g n (l, false) = checkParamList n l false := by
        unfold groupStep touchGroup
        simp [hr]
      rw [hstep, checkParamList_false]
      by_cases hemp : l.filter (fun q => q ≠ n) = []
      · rw [hemp, if_pos rfl]
        constructor
        · intro _ m hm
          have hmn := List.filter_eq_nil_iff.mp hemp m hm
          have hmn2 : m = n := by simpa using hmn
          simp [hmn2]
        · intro _
          exact runGroup_flag_mono g ns ([], true) rfl
      · rw [if_neg hemp]
        have hw2 : ∀ m ∈ l.filter (fun q => q ≠ n), routeOf m = some g :=
          fun m hm => hw m (List.mem_filter.mp hm).1
        rw [ih _ hemp hw2]
        constructor
        · intro hcov m hm
          by_cases hmn : m = n
          · simp [hmn]
          · have hmem : m ∈ l.filter (fun q => q ≠ n) :=
              List.mem_filter.mpr ⟨hm, by simp [hmn]⟩
            exact List.mem_cons_of_mem n (hcov m hmem)
        · intro hcov m hm
          have hm1 : m ∈ l := (List.mem_filter.mp hm).1
          have hmn : m ≠ n := by
            have h2 := (List.mem_filter.mp hm).2
            simpa using h2
          rcases List.mem_cons.mp (hcov m hm1) with h | h
          · exact absurd h hmn
          · exact h
    · have hstep : groupStep g n (l, false) = (l, false) := by
        unfold groupStep
        simp [hr]
      rw [hstep, ih l hl hw]
      constructor
      · intro hcov m hm
        exact List.mem_cons_of_mem n (hcov m hm)
      · intro hcov m hm
        rcases List.mem_cons.mp (hcov m hm) with h | h
        · exact absurd (h ▸ hw m hm) hr
        · exact h

/-- C6: for each parameter group, starting from a state where the
group's flag is false and its expected-name list is a nonempty list of
names routed to that group, `parametersCallback` makes the flag true
exactly when every expected name has been observed among the delivered
parameter names (any order, set-based); and once any group flag is
true, no further `parametersCallback` sequence makes it false. -/
theorem c6_group_readiness (g : PGroup) (s : PluginState) (ps : List Param)
    (h0 : groupFlag g s = false) (hl : groupList g s ≠ [])
    (hw : ∀ m ∈ groupList g s, routeOf m = some g) :
    (groupFlag g (parametersCallback ps s).2 = true ↔
      ∀ m ∈ groupList g s, m ∈ ps.map Param.name) ∧
    (∀ s2 : PluginState, ∀ qs : List Param, groupFlag g s2 = true →
      groupFlag g (parametersCallback qs s2).2 = true) := by
  constructor
  · have hflag : groupFlag g (parametersCallback ps s).2 =
        (runGroup g (ps.map Param.name) (groupList g s, groupFlag g s)).2 :=
      congrArg Prod.snd (groupProj_callback g ps s)
    rw [hflag, h0]
    exact runGroup_flag_iff g (ps.map Param.name) (groupList g s) hl hw
  · intro s2 qs h2
    have hflag : groupFlag g (parametersCallback qs s2).2 =
        (runGroup g (qs.map Param.name) (groupList g s2, groupFlag g s2)).2 :=
      congrArg Prod.snd (groupProj_callback g qs s2)
    rw [hflag]
    exact runGroup_flag_mono g _ _ h2

/-- Witness for C6: the position group with one outstanding name
becomes ready when that name arrives. -/
theorem c6_group_readiness_witness :
    groupFlag PGroup.position (parametersCallback [pKpX] sOneParam).2 =
      true :=
  (c6_group_readiness PGroup.position sOneParam [pKpX] rfl (by decide)
    (by decide)).1.mpr (by decide)

end SpeedCtl
